import Mathlib

/-!
Shallow embedding of the batch TTS generation path of
`english-learning-app/backend/src/routes/ttsRoutes.js`:
the `generateAudio` helper, the per-sentence task closures built by the
`POST /api/tts/generate-batch` handler, the settlement-to-result mapping,
the index sort, and the response assembly.  JavaScript strings are
modelled as `List Char`; the external `edge-tts` subprocess is abstracted
as an oracle `EngineBehavior` per job index: whether `execSync` throws
(non-zero exit, spawn failure or the 60s timeout), whether the output
file exists afterwards, and its size.  The `parallelLimit` scheduler is
modelled separately as a transition system over admission/settlement
events.
-/

namespace TTS

/-- A JavaScript string, as a sequence of characters. -/
abbrev JSString := List Char

/-- A JSON value as it can appear as an element of the request's
`sentences` array.  Only strings carry a payload the handler inspects;
`arr`/`obj` payloads are never examined by the code under study. -/
inductive JsonVal where
  | jstr (s : JSString)
  | jnum (n : Int)
  | jbool (b : Bool)
  | jnull
  | jarr
  | jobj
deriving DecidableEq, Repr

/-- Abstract behaviour of one invocation of the external `edge-tts`
engine: whether `execSync` throws (covers non-zero exit, the 60000 ms
timeout, and spawn errors), and the state of the output file afterwards. -/
structure EngineBehavior where
  execThrows : Option JSString
  fileExists : Bool
  fileSize : Nat
deriving DecidableEq, Repr

/-- `MAX_CONCURRENT` from the source. -/
def MAX_CONCURRENT : Nat := 5

/-- JavaScript `String.prototype.trim`-style whitespace test (space, tab,
newline, carriage return cover every character the code can meet here). -/
def jsIsWhitespace (c : Char) : Bool := c.isWhitespace

/-- JavaScript `s.trim()`: drop whitespace from both ends. -/
def jsTrim (s : JSString) : JSString :=
  ((s.dropWhile jsIsWhitespace).reverse.dropWhile jsIsWhitespace).reverse

/-- A global single-character regex replace such as `.replace(/"/g, "'")`:
every occurrence of `pat` is replaced by the (possibly empty) string `repl`. -/
def replaceAllChar (pat : Char) (repl : JSString) (s : JSString) : JSString :=
  s.flatMap (fun c => if c = pat then repl else [c])

/-- The text cleanup at the top of `generateAudio`:
`text.replace(/"/g, "'").replace(/\n/g, ' ').replace(/\r/g, '').trim()`. -/
def cleanTextOf (text : JSString) : JSString :=
  jsTrim (replaceAllChar '\r' [] (replaceAllChar '\n' [' '] (replaceAllChar '"' ['\''] text)))

/-- `generateAudio(text, voice, outputPath, rate)` from the source, with the
`execSync` call and the file-system checks driven by `beh`.  Mirrors the
promise: `reject` becomes `Except.error` and `resolve` becomes `Except.ok`. -/
def generateAudio (text voice outputPath rate : JSString) (beh : EngineBehavior) :
    Except JSString JSString :=
  if cleanTextOf text = [] then
    Except.error "文本内容为空".data
  else
    match beh.execThrows with
    | some msg => Except.error ("edge-tts执行失败: ".data ++ msg)
    | none =>
      if beh.fileExists then
        if 0 < beh.fileSize then Except.ok outputPath
        else Except.error "生成的音频文件为空".data
      else Except.error "音频文件未生成".data

/-- `true` exactly when `generateAudio` would reach the `execSync` call for
this sentence element: the task only calls `generateAudio` on a string
sentence with non-blank trim, and `generateAudio` itself bails out before
`execSync` when the cleaned text is empty. -/
def invokesEngine (sentence : JsonVal) : Bool :=
  match sentence with
  | .jstr s => !(jsTrim s == []) && !(cleanTextOf (jsTrim s) == [])
  | _ => false

/-- Decimal digit character, `'0'` for 0 through `'9'` for 9. -/
def decDigitChar (d : Nat) : Char := Char.ofNat (48 + d)

/-- Decimal rendering worker (structural on a fuel bound so that it
computes by reduction); renders most significant digit first. -/
def jsNatDigits : Nat → Nat → JSString
  | 0, _ => []
  | fuel + 1, n =>
    if n < 10 then [decDigitChar n]
    else jsNatDigits fuel (n / 10) ++ [decDigitChar (n % 10)]

/-- Model of JavaScript `String(n)` on a natural number: decimal rendering. -/
def jsNatToString (n : Nat) : JSString := jsNatDigits (n + 1) n

/-- Model of JavaScript `s.padStart(3, '0')`. -/
def padStart3 (s : JSString) : JSString :=
  if 3 ≤ s.length then s else List.replicate (3 - s.length) '0' ++ s

/-- The batch output filename
`` `${batchId}_${String(i + 1).padStart(3, '0')}.mp3` `` for the job at
0-based position `i`. -/
def batchFilename (batchId : JSString) (i : Nat) : JSString :=
  batchId ++ ['_'] ++ padStart3 (jsNatToString (i + 1)) ++ ".mp3".data

/-- One per-job record produced by the batch handler (`index`, `text`,
`audioPath`, `success`, optional `error`). -/
structure JobResult where
  index : Nat
  text : JsonVal
  audioPath : Option JSString
  success : Bool
  error : Option JSString
deriving DecidableEq, Repr

/-- Outcome of `Promise.allSettled` for one task. -/
inductive Settlement where
  | fulfilled (value : JobResult)
  | rejected (reason : JSString)
deriving DecidableEq, Repr

/-- `true` exactly on string elements (`typeof sentence === "string"` is
never tested by the handler, but only strings have a `trim` method). -/
def isStringSentence (sentence : JsonVal) : Bool :=
  match sentence with
  | .jstr _ => true
  | _ => false

/-- The `TypeError` message produced by `sentence.trim()` on a non-string
element: property access on `null` itself throws, any other non-string
value has no callable `trim` property. -/
def trimTypeErrorMsg (sentence : JsonVal) : JSString :=
  match sentence with
  | .jnull => "Cannot read properties of null (reading \x27trim\x27)".data
  | _ => "sentence.trim is not a function".data

/-- The task closure built for sentence `i` inside `generate-batch`.
For a string sentence it trims, short-circuits on blank text, otherwise
calls `generateAudio` and catches its rejection into a failed record;
for a non-string element `sentence.trim()` throws a `TypeError` (with the
null-specific message when the element is `null`), so the task's promise
is rejected. -/
def runTask (engine : Nat → EngineBehavior) (batchId voice rate : JSString)
    (i : Nat) (sentence : JsonVal) : Settlement :=
  match sentence with
  | .jstr s =>
    let text := jsTrim s
    if text = [] then
      .fulfilled { index := i, text := .jstr [], audioPath := none,
                   success := false, error := some "空文本".data }
    else
      match generateAudio text voice (batchFilename batchId i) rate (engine i) with
      | .ok _ =>
        .fulfilled { index := i, text := .jstr text,
                     audioPath := some ("/audio/".data ++ batchFilename batchId i),
                     success := true, error := none }
      | .error msg =>
        .fulfilled { index := i, text := .jstr text, audioPath := none,
                     success := false, error := some msg }
  | .jnull => .rejected "Cannot read properties of null (reading \x27trim\x27)".data
  | _ => .rejected "sentence.trim is not a function".data

/-- The `settledResults.map((r, i) => ...)` step: a fulfilled settlement
yields its value, a rejected one is converted to a failed record at
position `i` carrying `sentences[i]` and `r.reason?.message || '未知错误'`. -/
def settleToResult (sentences : List JsonVal) (i : Nat) (r : Settlement) : JobResult :=
  match r with
  | .fulfilled v => v
  | .rejected reason =>
    { index := i, text := sentences.getD i .jnull, audioPath := none,
      success := false,
      error := some (if reason = [] then "未知错误".data else reason) }

/-- The comparator `(a, b) => a.index - b.index` of the final
`results.sort`, as a boolean total preorder on records. -/
def resultLe (a b : JobResult) : Bool := decide (a.index ≤ b.index)

/-- The JSON body sent on success by `generate-batch`. -/
structure BatchResponse where
  success : Bool
  batchId : JSString
  total : Nat
  successCount : Nat
  results : List JobResult
deriving DecidableEq, Repr

/-- Whether `await parallelLimit(tasks, limit)` throws instead of
resolving to the settlement list.  In the source, when
`limit <= tasks.length`, every admitted task is tracked by
`e = p.then(() => executing.splice(...))` with **no rejection handler**:
if `p` rejects, `e` rejects too and is never spliced out.  A task promise
rejects exactly when its sentence is a non-string (`sentence.trim()`
throws synchronously on the task's first microtask run), which rejects
`p` in that same round; every fulfilment path instead passes through the
adoption of the async closure's promise (and, for non-blank text, an
`await` on the already-settled `generateAudio` promise), taking strictly
more microtask rounds before `e` settles.  Hence at each
`await Promise.race(executing)` a rejecting `e` in the awaited batch
settles before any fulfilling one and the race rejects; the `await`
throws, `parallelLimit`'s promise rejects, and the handler's catch
answers HTTP 500 (`批量TTS生成失败`).  Consequently a race that fulfils
had no rejecting task in its batch, so rejected leftovers never survive
into a later batch, and the awaited batches are exactly the consecutive
chunks of `limit` tasks (a final partial chunk is never awaited).  When
`limit > tasks.length` no tracking happens and no race is awaited at
all. -/
def parallelLimitLoop (limit : Nat) : List JsonVal → List JsonVal → Bool
  | _, [] => false
  | pending, x :: rest =>
    let pending1 := pending ++ [x]
    if limit ≤ pending1.length then
      if pending1.any (fun sentence => !(isStringSentence sentence)) then true
      else parallelLimitLoop limit [] rest
    else parallelLimitLoop limit pending1 rest

/-- `true` when `await parallelLimit(tasks, MAX_CONCURRENT)` throws for
this sentence list; see `parallelLimitLoop`. -/
def parallelLimitRejects (sentences : List JsonVal) (limit : Nat) : Bool :=
  if limit ≤ sentences.length then parallelLimitLoop limit [] sentences
  else false

/-- The resolved-path body of the `generate-batch` handler, used when
`parallelLimit` resolves: build one task per sentence, take the
settlements in input order (`Promise.allSettled` preserves the order of
the `results` array), convert settlements to records, sort by index
(JavaScript `Array.prototype.sort` is stable; modelled by stable
`mergeSort`), and assemble the 200 response. -/
def runBatch (engine : Nat → EngineBehavior) (batchId : JSString)
    (sentences : List JsonVal) (voice rate : JSString) : BatchResponse :=
  let settledResults := sentences.mapIdx (fun i s => runTask engine batchId voice rate i s)
  let results := settledResults.mapIdx (fun i r => settleToResult sentences i r)
  let sorted := results.mergeSort resultLe
  { success := true, batchId := batchId, total := sentences.length,
    successCount := (sorted.filter (fun r => r.success)).length,
    results := sorted }

/-- The `sentences` field of the request body: absent, present but not an
array (`Array.isArray` fails), or an array of JSON values. -/
inductive SentencesField where
  | missing
  | nonArray (v : JsonVal)
  | arr (l : List JsonVal)
deriving DecidableEq, Repr

/-- The keys of `VOICE_OPTIONS`. -/
def VOICE_IDS : List JSString :=
  ["en-US-JennyNeural".data, "en-US-GuyNeural".data, "en-US-AriaNeural".data,
   "en-US-DavisNeural".data, "en-GB-SoniaNeural".data, "en-GB-RyanNeural".data,
   "en-AU-NatashaNeural".data, "en-AU-WilliamNeural".data]

/-- The `POST /api/tts/generate-batch` handler: the input validation chain
(`!Array.isArray(sentences) || sentences.length === 0`, then the voice
check, then edge-tts availability), followed by
`await parallelLimit(tasks, MAX_CONCURRENT)` — whose rejection is caught
by the handler's catch and answered as the 500 `批量TTS生成失败` body —
and otherwise the 200 response.  `Except.error` carries the `error`
field of the 4xx/5xx JSON body. -/
def generateBatch (engine : Nat → EngineBehavior) (edgeTtsAvailable : Bool)
    (batchId : JSString) (sentencesField : SentencesField) (voice rate : JSString) :
    Except JSString BatchResponse :=
  match sentencesField with
  | .arr sentences =>
    if sentences.length = 0 then Except.error "请提供有效的句子数组".data
    else if ¬ voice ∈ VOICE_IDS then Except.error "无效的音色ID".data
    else if ¬ edgeTtsAvailable = true then Except.error "edge-tts 未安装".data
    else if parallelLimitRejects sentences MAX_CONCURRENT then
      Except.error "批量TTS生成失败".data
    else Except.ok (runBatch engine batchId sentences voice rate)
  | _ => Except.error "请提供有效的句子数组".data

/-! ## Transition-system model of `parallelLimit`

`parallelLimit(tasks, limit)` dispatches the tasks in input order.  When
`limit <= tasks.length` it tracks admitted-but-unsettled tasks in the
`executing` array and, after pushing a task, awaits `Promise.race` whenever
`executing.length >= limit`; each task removes itself from `executing` as it
settles, so at the moment a new task is admitted fewer than `limit` tracked
tasks are unsettled.  When `limit > tasks.length` no tracking happens and
every task is admitted freely.  The model: a state holds the number of
tasks admitted so far and the set of admitted-but-unsettled task indices;
steps either admit the next task (guarded as in the code) or settle any
in-flight task. -/

/-- Scheduler state: `nextIndex` tasks have been admitted; `inflight` are
admitted but not yet settled. -/
structure SchedState where
  nextIndex : Nat
  inflight : Finset Nat
deriving DecidableEq

/-- Initial scheduler state. -/
def SchedState.init : SchedState := ⟨0, ∅⟩

/-- One scheduler event of `parallelLimit` over `taskCount` tasks with
concurrency `limit`. -/
inductive SchedStep (taskCount limit : Nat) : SchedState → SchedState → Prop where
  | dispatch (s : SchedState) (h : s.nextIndex < taskCount)
      (hgate : limit ≤ taskCount → s.inflight.card < limit) :
      SchedStep taskCount limit s ⟨s.nextIndex + 1, insert s.nextIndex s.inflight⟩
  | settle (s : SchedState) (i : Nat) (h : i ∈ s.inflight) :
      SchedStep taskCount limit s ⟨s.nextIndex, s.inflight.erase i⟩

/-- States reachable by `parallelLimit` from the start of the loop. -/
def SchedReachable (taskCount limit : Nat) (s : SchedState) : Prop :=
  Relation.ReflTransGen (SchedStep taskCount limit) SchedState.init s

end TTS

/-! ## Helper definitions and lemmas -/

namespace TTS

/-- The list of per-job records in input order, before the final sort:
the composition of the task map and the settlement map of `runBatch`. -/
def preResults (engine : Nat → EngineBehavior) (batchId : JSString)
    (sentences : List JsonVal) (voice rate : JSString) : List JobResult :=
  (sentences.mapIdx (fun i s => runTask engine batchId voice rate i s)).mapIdx
    (fun i r => settleToResult sentences i r)

/-- `runBatch` without the `results.sort((a, b) => a.index - b.index)` step;
the comparison point for the refinement claim that the sort is the identity. -/
def runBatchNoSort (engine : Nat → EngineBehavior) (batchId : JSString)
    (sentences : List JsonVal) (voice rate : JSString) : BatchResponse :=
  let settledResults := sentences.mapIdx (fun i s => runTask engine batchId voice rate i s)
  let results := settledResults.mapIdx (fun i r => settleToResult sentences i r)
  { success := true, batchId := batchId, total := sentences.length,
    successCount := (results.filter (fun r => r.success)).length,
    results := results }

/-- An engine invocation that fails: `execSync` throws (non-zero exit,
spawn error or timeout), or it leaves the output file missing or empty. -/
def EngineBehavior.fails (beh : EngineBehavior) : Prop :=
  beh.execThrows ≠ none ∨ beh.fileExists = false ∨ beh.fileSize = 0

/-- Decimal value of a digit string (leading zeros ignored). -/
def decValue (s : JSString) : Nat :=
  s.foldl (fun acc c => acc * 10 + (c.toNat - 48)) 0

theorem decDigitChar_toNat {d : Nat} (h : d < 10) : (decDigitChar d).toNat = 48 + d := by
  interval_cases d <;> rfl

theorem decValue_append_digit (s : JSString) {d : Nat} (h : d < 10) :
    decValue (s ++ [decDigitChar d]) = decValue s * 10 + d := by
  simp [decValue, List.foldl_append, decDigitChar_toNat h]

theorem decValue_jsNatDigits : ∀ fuel n, n < fuel → decValue (jsNatDigits fuel n) = n := by
  intro fuel
  induction fuel with
  | zero => omega
  | succ fuel ih =>
    intro n hn
    rw [jsNatDigits]
    split
    · rename_i h
      simp [decValue, decDigitChar_toNat h]
    · rename_i h
      have hdiv : n / 10 < n := Nat.div_lt_self (by omega) (by omega)
      rw [decValue_append_digit _ (Nat.mod_lt _ (by omega)), ih (n / 10) (by omega)]
      omega

theorem decValue_zeros_append (k : Nat) (s : JSString) :
    decValue (List.replicate k '0' ++ s) = decValue s := by
  induction k with
  | zero => rfl
  | succ k ih =>
    rw [List.replicate_succ, List.cons_append]
    show List.foldl _ (0 * 10 + ('0'.toNat - 48)) _ = _
    exact ih

theorem decValue_padStart3 (s : JSString) : decValue (padStart3 s) = decValue s := by
  rw [padStart3]
  split
  · rfl
  · exact decValue_zeros_append _ _

theorem decValue_pad_jsNat (n : Nat) : decValue (padStart3 (jsNatToString n)) = n := by
  rw [decValue_padStart3, jsNatToString, decValue_jsNatDigits _ _ (Nat.lt_succ_self n)]

theorem batchFilename_inj (b : JSString) {i j : Nat}
    (h : batchFilename b i = batchFilename b j) : i = j := by
  unfold batchFilename at h
  have h1 := List.append_cancel_right h
  have h2 := List.append_cancel_left h1
  have h3 := congrArg decValue h2
  rw [decValue_pad_jsNat, decValue_pad_jsNat] at h3
  omega

end TTS
namespace TTS

theorem settleToResult_runTask_index (engine : Nat → EngineBehavior)
    (batchId voice rate : JSString) (sentences : List JsonVal) (i : Nat) (s : JsonVal) :
    (settleToResult sentences i (runTask engine batchId voice rate i s)).index = i := by
  cases s with
  | jstr s =>
    simp only [runTask]
    split
    · rfl
    · split <;> rfl
  | jnum n => rfl
  | jbool b => rfl
  | jnull => rfl
  | jarr => rfl
  | jobj => rfl

theorem preResults_getElem? (engine : Nat → EngineBehavior) (batchId : JSString)
    (sentences : List JsonVal) (voice rate : JSString) (i : Nat) :
    (preResults engine batchId sentences voice rate)[i]? =
      (sentences[i]?).map
        (fun s => settleToResult sentences i (runTask engine batchId voice rate i s)) := by
  unfold preResults
  rw [List.mapIdx_eq_iff.mp rfl i, List.mapIdx_eq_iff.mp rfl i]
  cases sentences[i]? <;> rfl

theorem preResults_length (engine : Nat → EngineBehavior) (batchId : JSString)
    (sentences : List JsonVal) (voice rate : JSString) :
    (preResults engine batchId sentences voice rate).length = sentences.length := by
  unfold preResults
  rw [List.length_mapIdx, List.length_mapIdx]

theorem preResults_index (engine : Nat → EngineBehavior) (batchId : JSString)
    (sentences : List JsonVal) (voice rate : JSString) (i : Nat) (t : JobResult)
    (h : (preResults engine batchId sentences voice rate)[i]? = some t) :
    t.index = i := by
  rw [preResults_getElem?] at h
  cases hs : sentences[i]? with
  | none => rw [hs] at h; exact Option.noConfusion h
  | some s =>
    rw [hs] at h
    cases h
    exact settleToResult_runTask_index ..

theorem preResults_pairwise (engine : Nat → EngineBehavior) (batchId : JSString)
    (sentences : List JsonVal) (voice rate : JSString) :
    (preResults engine batchId sentences voice rate).Pairwise
      (fun a b => resultLe a b = true) := by
  rw [List.pairwise_iff_getElem]
  intro i j hi hj hij
  have hti := preResults_index engine batchId sentences voice rate i _
    (List.getElem?_eq_getElem hi)
  have htj := preResults_index engine batchId sentences voice rate j _
    (List.getElem?_eq_getElem hj)
  simp only [resultLe, hti, htj, decide_eq_true_eq]
  omega

theorem runBatch_eq_noSort (engine : Nat → EngineBehavior) (batchId : JSString)
    (sentences : List JsonVal) (voice rate : JSString) :
    runBatch engine batchId sentences voice rate =
      runBatchNoSort engine batchId sentences voice rate := by
  show
    ({ success := true, batchId := batchId, total := sentences.length,
       successCount :=
         (((preResults engine batchId sentences voice rate).mergeSort resultLe).filter
             (fun r => r.success)).length,
       results := (preResults engine batchId sentences voice rate).mergeSort resultLe }
      : BatchResponse) =
    { success := true, batchId := batchId, total := sentences.length,
      successCount :=
        ((preResults engine batchId sentences voice rate).filter (fun r => r.success)).length,
      results := preResults engine batchId sentences voice rate }
  rw [List.mergeSort_of_sorted (preResults_pairwise engine batchId sentences voice rate)]

end TTS
namespace TTS

theorem runBatch_results (engine : Nat → EngineBehavior) (batchId : JSString)
    (sentences : List JsonVal) (voice rate : JSString) :
    (runBatch engine batchId sentences voice rate).results =
      preResults engine batchId sentences voice rate := by
  rw [runBatch_eq_noSort]; rfl

theorem runBatch_successCount (engine : Nat → EngineBehavior) (batchId : JSString)
    (sentences : List JsonVal) (voice rate : JSString) :
    (runBatch engine batchId sentences voice rate).successCount =
      ((runBatch engine batchId sentences voice rate).results.filter
          (fun t => t.success)).length := by
  rw [runBatch_eq_noSort]; rfl

theorem runBatch_total (engine : Nat → EngineBehavior) (batchId : JSString)
    (sentences : List JsonVal) (voice rate : JSString) :
    (runBatch engine batchId sentences voice rate).total = sentences.length := by
  rw [runBatch_eq_noSort]; rfl

theorem generateBatch_arr_ok {engine : Nat → EngineBehavior} {avail : Bool}
    {b : JSString} {sentences : List JsonVal} {v r : JSString} {resp : BatchResponse}
    (h : generateBatch engine avail b (.arr sentences) v r = .ok resp) :
    resp = runBatch engine b sentences v r := by
  simp only [generateBatch] at h
  split at h
  · exact Except.noConfusion h
  · split at h
    · exact Except.noConfusion h
    · split at h
      · exact Except.noConfusion h
      · split at h
        · exact Except.noConfusion h
        · injection h with h
          exact h.symm

theorem generateBatch_accepted (engine : Nat → EngineBehavior) (b : JSString)
    (sentences : List JsonVal) (v r : JSString)
    (hne : sentences.length ≠ 0) (hv : v ∈ VOICE_IDS)
    (hnr : parallelLimitRejects sentences MAX_CONCURRENT = false) :
    generateBatch engine true b (.arr sentences) v r =
      .ok (runBatch engine b sentences v r) := by
  simp [generateBatch, hne, hv, hnr]

theorem parallelLimitLoop_of_strings (limit : Nat) (pending remaining : List JsonVal)
    (hpend : ∀ x ∈ pending, isStringSentence x = true)
    (hrem : ∀ x ∈ remaining, isStringSentence x = true) :
    parallelLimitLoop limit pending remaining = false := by
  induction remaining generalizing pending with
  | nil => rfl
  | cons x rest ih =>
    have hx : isStringSentence x = true := hrem x (List.mem_cons_self ..)
    have hpend1 : ∀ y ∈ pending ++ [x], isStringSentence y = true := by
      intro y hy
      rcases List.mem_append.mp hy with hy | hy
      · exact hpend y hy
      · rw [List.mem_singleton.mp hy]
        exact hx
    have hrem1 : ∀ y ∈ rest, isStringSentence y = true :=
      fun y hy => hrem y (List.mem_cons_of_mem _ hy)
    have hany : ¬ ((pending ++ [x]).any (fun sentence => !(isStringSentence sentence)) = true) := by
      intro hany
      obtain ⟨y, hy, hyb⟩ := List.any_eq_true.mp hany
      rw [hpend1 y hy] at hyb
      exact Bool.noConfusion hyb
    rw [parallelLimitLoop]
    by_cases hlim : limit ≤ (pending ++ [x]).length
    · rw [if_pos hlim, if_neg hany]
      exact ih [] (by intro y hy; exact absurd hy (List.not_mem_nil y)) hrem1
    · rw [if_neg hlim]
      exact ih (pending ++ [x]) hpend1 hrem1

/-- A batch whose elements are all strings never rejects: no task promise
can reject, so every admission race fulfils. -/
theorem parallelLimitRejects_of_strings (sentences : List JsonVal) (limit : Nat)
    (hstr : ∀ x ∈ sentences, isStringSentence x = true) :
    parallelLimitRejects sentences limit = false := by
  rw [parallelLimitRejects]
  split
  · exact parallelLimitLoop_of_strings limit [] sentences
      (by intro y hy; exact absurd hy (List.not_mem_nil y)) hstr
  · rfl

end TTS

/-! ## Claims -/

namespace TTS

/-- C1: for every input sentence list accepted by the batch endpoint
(a non-empty array), the returned results sequence has exactly one
`JobResult` per input job: its length equals the input list's length,
regardless of how many individual jobs fail. -/
theorem batch_results_length_eq_input_length
    (engine : Nat → EngineBehavior) (avail : Bool) (batchId : JSString)
    (sentences : List JsonVal) (voice rate : JSString) (resp : BatchResponse)
    (hok : generateBatch engine avail batchId (.arr sentences) voice rate = .ok resp) :
    resp.results.length = sentences.length := by
  rw [generateBatch_arr_ok hok, runBatch_results]
  exact preResults_length ..

/-- C2: for every accepted batch, the returned results sequence is sorted
by original input index: the record at output position `i` has
`index = i`, so position `i` of the output corresponds to position `i`
of the input, whatever the completion order of the concurrent jobs. -/
theorem batch_results_index_eq_position
    (engine : Nat → EngineBehavior) (avail : Bool) (batchId : JSString)
    (sentences : List JsonVal) (voice rate : JSString) (resp : BatchResponse)
    (hok : generateBatch engine avail batchId (.arr sentences) voice rate = .ok resp) :
    ∀ (i : Nat) (t : JobResult), resp.results[i]? = some t → t.index = i := by
  rw [generateBatch_arr_ok hok, runBatch_results]
  intro i t ht
  exact preResults_index _ _ _ _ _ _ _ ht

/-- C7: for every accepted batch, `successCount` equals the number of
records in `results` whose success flag is true, and is therefore at most
the number of input jobs. -/
theorem batch_successCount_consistent
    (engine : Nat → EngineBehavior) (avail : Bool) (batchId : JSString)
    (sentences : List JsonVal) (voice rate : JSString) (resp : BatchResponse)
    (hok : generateBatch engine avail batchId (.arr sentences) voice rate = .ok resp) :
    resp.successCount = (resp.results.filter (fun t => t.success)).length ∧
      resp.successCount ≤ sentences.length := by
  rw [generateBatch_arr_ok hok]
  refine ⟨runBatch_successCount .., ?_⟩
  rw [runBatch_successCount, runBatch_results]
  calc ((preResults engine batchId sentences voice rate).filter (fun t => t.success)).length
      ≤ (preResults engine batchId sentences voice rate).length := List.length_filter_le ..
    _ = sentences.length := preResults_length ..

/-- C9 (implicit refinement): the concurrency-limited runner already
yields settled results positionally aligned with the input task order, so
the final sort by index is the identity permutation: the outcome with the
sort step equals the outcome without it. -/
theorem batch_sort_step_is_identity
    (engine : Nat → EngineBehavior) (batchId : JSString)
    (sentences : List JsonVal) (voice rate : JSString) :
    runBatch engine batchId sentences voice rate =
      runBatchNoSort engine batchId sentences voice rate :=
  runBatch_eq_noSort engine batchId sentences voice rate

/-- C5, counterexample: calling the endpoint with an empty (but
well-formed) sentences array does not return an empty outcome; it fails
the whole call with the same invalid-argument error as a malformed input
list. -/
theorem empty_list_not_empty_outcome :
    generateBatch (fun _ => ⟨none, true, 1⟩) true "b".data (.arr [])
      "en-US-JennyNeural".data "+0%".data = .error "请提供有效的句子数组".data := rfl

/-- C5, amended: an empty job list does not produce an empty outcome;
it fails the entire call before any dispatch with the same
invalid-argument error as a malformed or absent input list. -/
theorem empty_or_malformed_list_rejected
    (engine : Nat → EngineBehavior) (avail : Bool) (batchId : JSString)
    (voice rate : JSString) :
    generateBatch engine avail batchId (.arr []) voice rate =
        .error "请提供有效的句子数组".data ∧
      generateBatch engine avail batchId .missing voice rate =
        .error "请提供有效的句子数组".data ∧
      ∀ x, generateBatch engine avail batchId (.nonArray x) voice rate =
        .error "请提供有效的句子数组".data :=
  ⟨rfl, rfl, fun _ => rfl⟩

end TTS
namespace TTS

theorem generateAudio_fails (text voice outputPath rate : JSString) (beh : EngineBehavior)
    (hf : beh.fails) :
    ∃ msg, generateAudio text voice outputPath rate beh = .error msg := by
  obtain ⟨et, fe, fs⟩ := beh
  simp only [EngineBehavior.fails] at hf
  unfold generateAudio
  rcases hf with h | h | h
  · cases et with
    | none => exact absurd rfl h
    | some m =>
      split
      · exact ⟨_, rfl⟩
      · exact ⟨_, rfl⟩
  · cases et with
    | some m =>
      split
      · exact ⟨_, rfl⟩
      · exact ⟨_, rfl⟩
    | none =>
      have hfe : fe = false := h
      subst hfe
      split
      · exact ⟨_, rfl⟩
      · exact ⟨_, rfl⟩
  · cases et with
    | some m =>
      split
      · exact ⟨_, rfl⟩
      · exact ⟨_, rfl⟩
    | none =>
      have hfs : fs = 0 := h
      subst hfs
      split
      · exact ⟨_, rfl⟩
      · cases fe <;> exact ⟨_, rfl⟩

theorem settle_runTask_failed (engine : Nat → EngineBehavior) (batchId voice rate : JSString)
    (sentences : List JsonVal) (i : Nat) (sentence : JsonVal) (hf : (engine i).fails) :
    (settleToResult sentences i (runTask engine batchId voice rate i sentence)).success = false ∧
      (settleToResult sentences i (runTask engine batchId voice rate i sentence)).error ≠ none := by
  cases sentence with
  | jstr s =>
    simp only [runTask]
    split
    · exact ⟨rfl, by simp [settleToResult]⟩
    · obtain ⟨msg, hmsg⟩ :=
        generateAudio_fails (jsTrim s) voice (batchFilename batchId i) rate _ hf
      rw [hmsg]
      exact ⟨rfl, by simp [settleToResult]⟩
  | jnum n => exact ⟨rfl, by simp [runTask, settleToResult]⟩
  | jbool b => exact ⟨rfl, by simp [runTask, settleToResult]⟩
  | jnull => exact ⟨rfl, by simp [runTask, settleToResult]⟩
  | jarr => exact ⟨rfl, by simp [runTask, settleToResult]⟩
  | jobj => exact ⟨rfl, by simp [runTask, settleToResult]⟩

theorem runTask_engine_agree (engine engine' : Nat → EngineBehavior)
    (batchId voice rate : JSString) (i : Nat) (sentence : JsonVal)
    (h : engine i = engine' i) :
    runTask engine batchId voice rate i sentence =
      runTask engine' batchId voice rate i sentence := by
  cases sentence <;> simp only [runTask, h]

theorem preResults_agree (engine engine' : Nat → EngineBehavior) (batchId : JSString)
    (sentences : List JsonVal) (voice rate : JSString) (j : Nat)
    (h : engine j = engine' j) :
    (preResults engine batchId sentences voice rate)[j]? =
      (preResults engine' batchId sentences voice rate)[j]? := by
  rw [preResults_getElem?, preResults_getElem?]
  exact Option.map_congr fun s _ => by
    rw [runTask_engine_agree engine engine' batchId voice rate j s h]

end TTS
namespace TTS

/-- C6: for a batch of text jobs (string sentences, as in the spec's Job
data model), every per-job failure — thrown error or non-zero engine exit
(including the execution timeout), or an engine run that leaves the output
file missing or zero-byte — is recorded as a failed `JobResult` with an
error message for that job only: the batch call does not raise and still
returns a complete result set, and the results of all other jobs are
unaffected (changing the engine's behaviour at the failing index cannot
change any other record). -/
theorem per_job_failure_isolated
    (engine engine' : Nat → EngineBehavior) (batchId : JSString)
    (sentences : List JsonVal) (voice rate : JSString) (i : Nat)
    (hne : sentences.length ≠ 0) (hv : voice ∈ VOICE_IDS)
    (hstr : ∀ x ∈ sentences, isStringSentence x = true)
    (hagree : ∀ j : Nat, j ≠ i → engine j = engine' j)
    (hfail : (engine i).fails) :
    ∃ resp, generateBatch engine true batchId (.arr sentences) voice rate = .ok resp ∧
      resp.results.length = sentences.length ∧
      (∀ t : JobResult, resp.results[i]? = some t → t.success = false ∧ t.error ≠ none) ∧
      (∀ resp', generateBatch engine' true batchId (.arr sentences) voice rate = .ok resp' →
        ∀ j : Nat, j ≠ i → resp.results[j]? = resp'.results[j]?) := by
  refine ⟨runBatch engine batchId sentences voice rate,
    generateBatch_accepted engine batchId sentences voice rate hne hv
      (parallelLimitRejects_of_strings sentences MAX_CONCURRENT hstr), ?_, ?_, ?_⟩
  · rw [runBatch_results]
    exact preResults_length ..
  · intro t ht
    rw [runBatch_results, preResults_getElem?] at ht
    cases hs : sentences[i]? with
    | none => rw [hs] at ht; exact Option.noConfusion ht
    | some s =>
      rw [hs] at ht
      cases ht
      exact settle_runTask_failed engine batchId voice rate sentences i s hfail
  · intro resp' hok' j hj
    rw [generateBatch_arr_ok hok', runBatch_results, runBatch_results]
    exact preResults_agree engine engine' batchId sentences voice rate j (hagree j hj)

/-- C4: a job whose text is blank (empty or whitespace-only after
trimming) is never dispatched to the external engine: its record is the
fixed "empty text" (`空文本`) failure, the task never reaches the
`execSync` call (so it occupies no engine-invocation slot and no
execution-timeout window applies), and its settlement is independent of
the engine's behaviour. -/
theorem blank_text_job_never_dispatched
    (engine : Nat → EngineBehavior) (avail : Bool) (batchId : JSString)
    (sentences : List JsonVal) (voice rate : JSString) (resp : BatchResponse)
    (i : Nat) (s : JSString)
    (hok : generateBatch engine avail batchId (.arr sentences) voice rate = .ok resp)
    (hs : sentences[i]? = some (.jstr s)) (hblank : jsTrim s = []) :
    resp.results[i]? = some { index := i, text := .jstr [], audioPath := none,
                              success := false, error := some "空文本".data } ∧
      invokesEngine (.jstr s) = false ∧
      ∀ engine' : Nat → EngineBehavior,
        runTask engine batchId voice rate i (.jstr s) =
          runTask engine' batchId voice rate i (.jstr s) := by
  have htask : ∀ eng : Nat → EngineBehavior, runTask eng batchId voice rate i (.jstr s) =
      .fulfilled { index := i, text := .jstr [], audioPath := none,
                   success := false, error := some "空文本".data } := by
    intro eng
    simp [runTask, hblank]
  refine ⟨?_, ?_, fun engine' => (htask engine).trans (htask engine').symm⟩
  · rw [generateBatch_arr_ok hok, runBatch_results, preResults_getElem?, hs,
        Option.map_some', htask engine]
    rfl
  · simp [invokesEngine, hblank]

/-- C10, counterexample: with a non-string element and `MAX_CONCURRENT`
(= 5) sentences, the batch call does not return a complete result set:
the non-string task's rejected promise propagates through the
handler-less `e = p.then(...)` into `await Promise.race(executing)`,
`parallelLimit` rejects, and the handler answers the batch-level 500
(`批量TTS生成失败`). -/
theorem non_string_element_can_500 :
    generateBatch (fun _ => ⟨none, true, 1⟩) true "b".data
      (.arr [.jnum 5, .jstr "a".data, .jstr "b".data, .jstr "c".data, .jstr "d".data])
      "en-US-JennyNeural".data "+0%".data = .error "批量TTS生成失败".data := rfl

/-- C10, amended: the endpoint validates only that the input is a
non-empty array, not that its elements are strings; a non-string
element's task rejects with the `TypeError` from `sentence.trim()`
(null gets the null-specific message).  When the batch has fewer than
`MAX_CONCURRENT` sentences — so `parallelLimit` skips its admission
tracking and no race can reject — the call still returns a complete
result set and the rejected-settlement branch converts the element into
a failed record at its position carrying the original element as `text`;
with at least `MAX_CONCURRENT` sentences the unhandled rejection instead
poisons an awaited admission race whenever the element falls in a fully
awaited batch, and the whole call fails with the batch-level 500. -/
theorem non_string_element_failed_record
    (engine : Nat → EngineBehavior) (batchId : JSString)
    (sentences : List JsonVal) (voice rate : JSString)
    (i : Nat) (x : JsonVal)
    (hne : sentences.length ≠ 0) (hv : voice ∈ VOICE_IDS)
    (hlen : sentences.length < MAX_CONCURRENT)
    (hx : sentences[i]? = some x) (hnotstr : ∀ s : JSString, x ≠ .jstr s) :
    ∃ resp, generateBatch engine true batchId (.arr sentences) voice rate = .ok resp ∧
      resp.results.length = sentences.length ∧
      resp.results[i]? = some { index := i, text := x, audioPath := none,
                                success := false, error := some (trimTypeErrorMsg x) } := by
  have hnr : parallelLimitRejects sentences MAX_CONCURRENT = false := by
    rw [parallelLimitRejects, if_neg (by omega)]
  refine ⟨runBatch engine batchId sentences voice rate,
    generateBatch_accepted engine batchId sentences voice rate hne hv hnr, ?_, ?_⟩
  · rw [runBatch_results]
    exact preResults_length ..
  · rw [runBatch_results]
    have hTask : runTask engine batchId voice rate i x =
        .rejected (trimTypeErrorMsg x) := by
      cases x with
      | jstr s => exact absurd rfl (hnotstr s)
      | jnum n => rfl
      | jbool b => rfl
      | jnull => rfl
      | jarr => rfl
      | jobj => rfl
    have hgd : sentences.getD i .jnull = x := by
      rw [List.getD_eq_getElem?_getD, hx]
      rfl
    have hmsg : (trimTypeErrorMsg x = []) = False := by
      cases x <;> simp [trimTypeErrorMsg]
    rw [preResults_getElem?, hx, Option.map_some', hTask]
    simp only [settleToResult, hgd, hmsg, if_false]

/-- C8: for every successful job at input position `i` (0-based), the
output audio artifact name is the batch identifier, an underscore, and
the 1-based index `i + 1` rendered as a 3-digit zero-padded decimal,
with the `.mp3` extension; filenames within one batch are pairwise
distinct. -/
theorem successful_job_artifact_naming
    (engine : Nat → EngineBehavior) (avail : Bool) (batchId : JSString)
    (sentences : List JsonVal) (voice rate : JSString) (resp : BatchResponse)
    (i : Nat) (t : JobResult)
    (hok : generateBatch engine avail batchId (.arr sentences) voice rate = .ok resp)
    (ht : resp.results[i]? = some t) (hsucc : t.success = true) :
    t.audioPath = some ("/audio/".data ++
        (batchId ++ ['_'] ++ padStart3 (jsNatToString (i + 1)) ++ ".mp3".data)) ∧
      ∀ j k : Nat, j ≠ k → batchFilename batchId j ≠ batchFilename batchId k := by
  refine ⟨?_, fun j k hjk heq => hjk (batchFilename_inj batchId heq)⟩
  rw [generateBatch_arr_ok hok, runBatch_results, preResults_getElem?] at ht
  cases hs : sentences[i]? with
  | none => rw [hs] at ht; exact Option.noConfusion ht
  | some s =>
    rw [hs] at ht
    cases ht
    cases s with
    | jstr str =>
      simp only [runTask] at hsucc ⊢
      by_cases hb : jsTrim str = []
      · rw [if_pos hb] at hsucc
        exact Bool.noConfusion hsucc
      · rw [if_neg hb] at hsucc ⊢
        cases hga : generateAudio (jsTrim str) voice (batchFilename batchId i) rate (engine i) with
        | ok p => rfl
        | error m => rw [hga] at hsucc; exact Bool.noConfusion hsucc
    | jnum n => exact Bool.noConfusion hsucc
    | jbool b => exact Bool.noConfusion hsucc
    | jnull => exact Bool.noConfusion hsucc
    | jarr => exact Bool.noConfusion hsucc
    | jobj => exact Bool.noConfusion hsucc

end TTS
namespace TTS

theorem schedReachable_invariant (taskCount limit : Nat) (s : SchedState)
    (h : SchedReachable taskCount limit s) :
    s.inflight ⊆ Finset.range s.nextIndex ∧ s.nextIndex ≤ taskCount ∧
      s.inflight.card ≤ limit := by
  induction h with
  | refl =>
    refine ⟨?_, Nat.zero_le _, Nat.zero_le _⟩
    intro x hx
    exact absurd hx (Finset.not_mem_empty x)
  | @tail b c hab hbc ih =>
    obtain ⟨hsub, hle, hcard⟩ := ih
    cases hbc with
    | dispatch hnext hgate =>
      refine ⟨?_, hnext, ?_⟩
      · intro x hx
        rcases Finset.mem_insert.mp hx with hx | hx
        · subst hx
          exact Finset.mem_range.mpr (Nat.lt_succ_self _)
        · have hx' := Finset.mem_range.mp (hsub hx)
          show x ∈ Finset.range (b.nextIndex + 1)
          exact Finset.mem_range.mpr (by omega)
      · by_cases hcase : limit ≤ taskCount
        · have hlt := hgate hcase
          calc (insert b.nextIndex b.inflight).card
              ≤ b.inflight.card + 1 := Finset.card_insert_le ..
            _ ≤ limit := by omega
        · have hsub' : insert b.nextIndex b.inflight ⊆ Finset.range (b.nextIndex + 1) := by
            intro x hx
            rcases Finset.mem_insert.mp hx with hx | hx
            · subst hx
              exact Finset.mem_range.mpr (Nat.lt_succ_self _)
            · have hx' := Finset.mem_range.mp (hsub hx)
              exact Finset.mem_range.mpr (by omega)
          calc (insert b.nextIndex b.inflight).card
              ≤ (Finset.range (b.nextIndex + 1)).card := Finset.card_le_card hsub'
            _ = b.nextIndex + 1 := Finset.card_range ..
            _ ≤ limit := by omega
    | settle i hi =>
      refine ⟨?_, hle, ?_⟩
      · exact fun x hx => hsub (Finset.erase_subset i b.inflight hx)
      · calc (b.inflight.erase i).card
            ≤ b.inflight.card := Finset.card_le_card (Finset.erase_subset i b.inflight)
          _ ≤ limit := hcard

/-- C3: during any execution of the `parallelLimit` scheduler with
concurrency limit `L ≥ 1`, at no reachable instant are more than `L`
tasks started but not settled; in particular the number of in-flight
tasks whose sentence actually reaches the external engine's `execSync`
call never exceeds `L`. -/
theorem concurrency_never_exceeds_limit (taskCount limit : Nat)
    (sentences : List JsonVal) (s : SchedState)
    (hL : 1 ≤ limit) (h : SchedReachable taskCount limit s) :
    s.inflight.card ≤ limit ∧
      (s.inflight.filter
          (fun i => invokesEngine (sentences.getD i .jnull) = true)).card ≤ limit := by
  have hinv := schedReachable_invariant taskCount limit s h
  exact ⟨hinv.2.2, le_trans (Finset.card_filter_le _ _) hinv.2.2⟩

end TTS
/-! ## Concrete evaluation fixtures -/

namespace TTS

/-- An engine behaviour that always succeeds and writes a 1-byte file. -/
def demoEngine : Nat → EngineBehavior := fun _ => ⟨none, true, 1⟩

/-- An engine behaviour whose `execSync` always throws. -/
def failEngine : Nat → EngineBehavior := fun _ => ⟨some "boom".data, true, 1⟩

def demoSentences : List JsonVal := [.jstr "Hello".data]

def demoResult0 : JobResult :=
  { index := 0, text := .jstr "Hello".data, audioPath := some "/audio/b_001.mp3".data,
    success := true, error := none }

def demoResp : BatchResponse :=
  { success := true, batchId := "b".data, total := 1, successCount := 1,
    results := [demoResult0] }

theorem demo_hok :
    generateBatch demoEngine true "b".data (.arr demoSentences)
      "en-US-JennyNeural".data "+0%".data = .ok demoResp := by
  rw [generateBatch_accepted _ _ _ _ _ (by decide) (by decide) (by decide), runBatch_eq_noSort]
  exact congrArg Except.ok (by decide)

def blankSentences : List JsonVal := [.jstr " ".data]

def blankResult0 : JobResult :=
  { index := 0, text := .jstr [], audioPath := none, success := false,
    error := some "空文本".data }

def blankResp : BatchResponse :=
  { success := true, batchId := "b".data, total := 1, successCount := 0,
    results := [blankResult0] }

theorem blank_hok :
    generateBatch demoEngine true "b".data (.arr blankSentences)
      "en-US-JennyNeural".data "+0%".data = .ok blankResp := by
  rw [generateBatch_accepted _ _ _ _ _ (by decide) (by decide) (by decide), runBatch_eq_noSort]
  exact congrArg Except.ok (by decide)

def numSentences : List JsonVal := [.jnum 5]

def numResult0 : JobResult :=
  { index := 0, text := .jnum 5, audioPath := none, success := false,
    error := some "sentence.trim is not a function".data }

def numResp : BatchResponse :=
  { success := true, batchId := "b".data, total := 1, successCount := 0,
    results := [numResult0] }

theorem num_hok :
    generateBatch demoEngine true "b".data (.arr numSentences)
      "en-US-JennyNeural".data "+0%".data = .ok numResp := by
  rw [generateBatch_accepted _ _ _ _ _ (by decide) (by decide) (by decide), runBatch_eq_noSort]
  exact congrArg Except.ok (by decide)

def pairSentences : List JsonVal := [.jstr "Hi".data, .jstr "Yo".data]

end TTS
/-! ## Witnesses -/

namespace TTS

/-- Witness for C1 at a concrete accepted batch. -/
theorem batch_results_length_eq_input_length_witness :
    (generateBatch demoEngine true "b".data (.arr demoSentences)
        "en-US-JennyNeural".data "+0%".data = .ok demoResp) ∧
      demoResp.results.length = demoSentences.length :=
  ⟨demo_hok,
    batch_results_length_eq_input_length demoEngine true "b".data demoSentences
      "en-US-JennyNeural".data "+0%".data demoResp demo_hok⟩

/-- Witness for C2 at a concrete accepted batch and position 0. -/
theorem batch_results_index_eq_position_witness :
    (generateBatch demoEngine true "b".data (.arr demoSentences)
        "en-US-JennyNeural".data "+0%".data = .ok demoResp) ∧
      demoResult0.index = 0 :=
  ⟨demo_hok,
    batch_results_index_eq_position demoEngine true "b".data demoSentences
      "en-US-JennyNeural".data "+0%".data demoResp demo_hok 0 demoResult0 (by decide)⟩

/-- Witness for C7 at a concrete accepted batch. -/
theorem batch_successCount_consistent_witness :
    (generateBatch demoEngine true "b".data (.arr demoSentences)
        "en-US-JennyNeural".data "+0%".data = .ok demoResp) ∧
      (demoResp.successCount = (demoResp.results.filter (fun t => t.success)).length ∧
        demoResp.successCount ≤ demoSentences.length) :=
  ⟨demo_hok,
    batch_successCount_consistent demoEngine true "b".data demoSentences
      "en-US-JennyNeural".data "+0%".data demoResp demo_hok⟩

/-- Witness for C3: after admitting the first of two tasks under limit 1,
one task is in flight and the bound holds. -/
theorem concurrency_never_exceeds_limit_witness :
    (1 ≤ 1 ∧ SchedReachable 2 1 ⟨1, insert 0 ∅⟩) ∧
      ((⟨1, insert 0 ∅⟩ : SchedState).inflight.card ≤ 1 ∧
        ((⟨1, insert 0 ∅⟩ : SchedState).inflight.filter
            (fun i => invokesEngine (pairSentences.getD i .jnull) = true)).card ≤ 1) :=
  have hreach : SchedReachable 2 1 ⟨1, insert 0 ∅⟩ :=
    Relation.ReflTransGen.single
      (SchedStep.dispatch SchedState.init (by decide) (fun _ => by decide))
  ⟨⟨le_refl 1, hreach⟩,
    concurrency_never_exceeds_limit 2 1 pairSentences ⟨1, insert 0 ∅⟩ (le_refl 1) hreach⟩

/-- Witness for C4 at a concrete batch whose only sentence is blank. -/
theorem blank_text_job_never_dispatched_witness :
    ((generateBatch demoEngine true "b".data (.arr blankSentences)
          "en-US-JennyNeural".data "+0%".data = .ok blankResp) ∧
        blankSentences[0]? = some (.jstr " ".data) ∧ jsTrim " ".data = []) ∧
      (blankResp.results[0]? = some { index := 0, text := .jstr [], audioPath := none,
                                      success := false, error := some "空文本".data } ∧
        invokesEngine (.jstr " ".data) = false ∧
        ∀ engine' : Nat → EngineBehavior,
          runTask demoEngine "b".data "en-US-JennyNeural".data "+0%".data 0 (.jstr " ".data) =
            runTask engine' "b".data "en-US-JennyNeural".data "+0%".data 0 (.jstr " ".data)) :=
  ⟨⟨blank_hok, by decide, by decide⟩,
    blank_text_job_never_dispatched demoEngine true "b".data blankSentences
      "en-US-JennyNeural".data "+0%".data blankResp 0 " ".data blank_hok
      (by decide) (by decide)⟩

/-- Witness for C6: a two-job batch on an engine that always throws,
compared against itself. -/
theorem per_job_failure_isolated_witness :
    (pairSentences.length ≠ 0 ∧ "en-US-JennyNeural".data ∈ VOICE_IDS ∧
        (∀ x ∈ pairSentences, isStringSentence x = true) ∧ (failEngine 0).fails) ∧
      (∃ resp, generateBatch failEngine true "b".data (.arr pairSentences)
            "en-US-JennyNeural".data "+0%".data = .ok resp ∧
          resp.results.length = pairSentences.length ∧
          (∀ t : JobResult, resp.results[0]? = some t → t.success = false ∧ t.error ≠ none) ∧
          (∀ resp', generateBatch failEngine true "b".data (.arr pairSentences)
                "en-US-JennyNeural".data "+0%".data = .ok resp' →
            ∀ j : Nat, j ≠ 0 → resp.results[j]? = resp'.results[j]?)) :=
  ⟨⟨by decide, by decide, by decide, Or.inl fun h => Option.noConfusion h⟩,
    per_job_failure_isolated failEngine failEngine "b".data pairSentences
      "en-US-JennyNeural".data "+0%".data 0 (by decide) (by decide) (by decide)
      (fun _ _ => rfl) (Or.inl fun h => Option.noConfusion h)⟩

/-- Witness for C8 at the successful job of a concrete batch. -/
theorem successful_job_artifact_naming_witness :
    ((generateBatch demoEngine true "b".data (.arr demoSentences)
          "en-US-JennyNeural".data "+0%".data = .ok demoResp) ∧
        demoResp.results[0]? = some demoResult0 ∧ demoResult0.success = true) ∧
      (demoResult0.audioPath = some ("/audio/".data ++
          ("b".data ++ ['_'] ++ padStart3 (jsNatToString (0 + 1)) ++ ".mp3".data)) ∧
        ∀ j k : Nat, j ≠ k → batchFilename "b".data j ≠ batchFilename "b".data k) :=
  ⟨⟨demo_hok, by decide, by decide⟩,
    successful_job_artifact_naming demoEngine true "b".data demoSentences
      "en-US-JennyNeural".data "+0%".data demoResp 0 demoResult0 demo_hok
      (by decide) (by decide)⟩

/-- Witness for C10 (amended) at a concrete sub-limit batch whose only
element is the number 5. -/
theorem non_string_element_failed_record_witness :
    (numSentences.length ≠ 0 ∧ "en-US-JennyNeural".data ∈ VOICE_IDS ∧
        numSentences.length < MAX_CONCURRENT ∧ numSentences[0]? = some (.jnum 5)) ∧
      (∃ resp, generateBatch demoEngine true "b".data (.arr numSentences)
            "en-US-JennyNeural".data "+0%".data = .ok resp ∧
          resp.results.length = numSentences.length ∧
          resp.results[0]? = some { index := 0, text := .jnum 5, audioPath := none,
                                    success := false,
                                    error := some (trimTypeErrorMsg (.jnum 5)) }) :=
  ⟨⟨by decide, by decide, by decide, by decide⟩,
    non_string_element_failed_record demoEngine "b".data numSentences
      "en-US-JennyNeural".data "+0%".data 0 (.jnum 5)
      (by decide) (by decide) (by decide) (by decide) (fun s h => JsonVal.noConfusion h)⟩

end TTS
